import Mathlib

/-!
Verification of the `BaseMockController` protocol engine of ts_hexrotcomm
(`python/lsst/ts/hexrotcomm/base_mock_controller.py`).

The development shallowly embeds the controller state machine, the command
dispatch/acknowledgement pipeline (`get_command_key`, `run_command`,
`read_and_dispatch`, `write_command_status`), the telemetry/config publisher
loop, the frame-header codec (`update_and_get_header`), and the connection
lifecycle (`connect_callback`, `close_client`) as pure Lean functions.

Side effects are made explicit:
* controller state (`telemetry.state`, `telemetry.enabled_substate`,
  `config.drives_enabled`) is threaded as a `CtrlState` record;
* socket writes and hook invocations are recorded as an `Event` trace;
* the wall clock is a rational-number parameter (exact-arithmetic model of
  the Python float timestamps);
* asyncio task creation/cancellation is modelled as a transition system on
  an explicit list of created publisher tasks.

The built-in command table is modelled with `extra_commands = {}`, i.e. the
table `BaseMockController.__init__` itself builds (the four built-in
entries); device-specific extra handlers are outside this development.
-/

namespace Hexrotcomm

/-- Modelled from the spec: `lsst.ts.xml.enums.MTHexapod.ControllerState`
(an external enum; the spec names STANDBY, ENABLED, FAULT plus
device-specific additional states, represented here by `OFFLINE`). -/
inductive ControllerState where
  | STANDBY
  | ENABLED
  | FAULT
  | OFFLINE
  deriving DecidableEq, Repr

/-- Modelled from the spec: `lsst.ts.xml.enums.MTHexapod.EnabledSubstate.STATIONARY`,
the canonical substate while ENABLED. Substates travel on the wire as small
integers; the spec fixes the "no substate" value to 0. -/
def STATIONARY : Nat := 0

/-- Modelled from the spec: the `enums.FrameId` frame kinds
(CONFIG, TELEMETRY, COMMAND_STATUS at minimum). -/
inductive FrameId where
  | CONFIG
  | TELEMETRY
  | COMMAND_STATUS
  deriving DecidableEq, Repr

/-- Modelled from the spec: `enums.CommandStatusCode` (ACK / NO_ACK). -/
inductive CommandStatusCode where
  | ACK
  | NO_ACK
  deriving DecidableEq, Repr

/-- Modelled from the spec: the device-supplied `CommandCode` enum must
contain SET_STATE, SET_ENABLED_SUBSTATE and ENABLE_DRIVES; opcodes are
integers on the wire.  The numeric values are device-defined; these
representative values are distinct, which is all the engine relies on. -/
def SET_STATE : Nat := 1

/-- Modelled from the spec: see `SET_STATE`. -/
def SET_ENABLED_SUBSTATE : Nat := 2

/-- Modelled from the spec: see `SET_STATE`. -/
def ENABLE_DRIVES : Nat := 3

/-- Modelled from the spec: `enums.SetStateParam` sub-selector values carried
in `param1` of a SET_STATE command (ENABLE, STANDBY, CLEAR_ERROR).
Values are representative distinct integers. -/
def SetStateParam.ENABLE : Int := 2

/-- Modelled from the spec: see `SetStateParam.ENABLE`. -/
def SetStateParam.STANDBY : Int := 3

/-- Modelled from the spec: see `SetStateParam.ENABLE`. -/
def SetStateParam.CLEAR_ERROR : Int := 6

/-- Modelled from the spec: `structs.COMMAND_STATUS_REASON_LEN`, the fixed
maximum length of the CommandStatus reason field ("bounded-length text ...
truncates reason to a fixed maximum length rather than failing"). The spec
does not give the number; only positivity matters to the engine. -/
def COMMAND_STATUS_REASON_LEN : Nat := 50

/-- Modelled from the spec: `structs.Command` — {code, counter, param1..param6}.
Params are numeric on the wire and are converted with `int(...)` where the
engine consumes them as integers; the model restricts to integer values. -/
structure Command where
  code : Nat
  counter : Nat
  param1 : Int
  param2 : Int
  param3 : Int
  param4 : Int
  param5 : Int
  param6 : Int
  deriving DecidableEq, Repr

/-- The mutable engine state the dispatcher touches: `telemetry.state`,
`telemetry.enabled_substate` (exposed by the `state` / `enabled_substate`
properties) and `config.drives_enabled`. -/
structure CtrlState where
  state : ControllerState
  enabled_substate : Nat
  drives_enabled : Bool
  deriving DecidableEq, Repr

/-- A CommandStatus record as assembled by `write_command_status`:
header counter, status code, duration (None already coerced to 0) and the
encoded, truncated reason (`reason.encode()[0:COMMAND_STATUS_REASON_LEN]`),
modelled as a character list. -/
structure CommandStatusRec where
  counter : Nat
  status : CommandStatusCode
  duration : ℚ
  reason : List Char
  deriving DecidableEq, Repr

/-- Observable actions of the dispatch pipeline: socket writes
(`write_config`, `write_command_status`) and the invocation of a handler
and of the abstract `end_run_command` hook. -/
inductive Event where
  | wroteConfig (drives_enabled : Bool)
  | wroteStatus (rec : CommandStatusRec)
  | invokedHandler (code : Nat)
  | endRunCommand (code : Nat)
  deriving DecidableEq, Repr

/-- Dispatch key: `get_command_key` returns the bare code, or the pair
(code, int(param1)) for SET_STATE / SET_ENABLED_SUBSTATE. -/
inductive CommandKey where
  | plain (code : Nat)
  | withParam (code : Nat) (param : Int)
  deriving DecidableEq, Repr

/-- Embedding of `BaseMockController.get_command_key`. -/
def get_command_key (command : Command) : CommandKey :=
  if command.code = SET_STATE ∨ command.code = SET_ENABLED_SUBSTATE then
    .withParam command.code command.param1
  else
    .plain command.code

/-- Embedding of `BaseMockController.set_state`: unconditionally set the state, and set
the enabled substate to STATIONARY when entering ENABLED and to 0 otherwise
(the debug logging has no observable effect). -/
def set_state (s : CtrlState) (state : ControllerState) : CtrlState :=
  { s with
    state := state
    enabled_substate :=
      if state = ControllerState.ENABLED then STATIONARY else 0 }

/-- The message built by `assert_state` when the state check fails. -/
def assert_state_msg (current required : ControllerState) : String :=
  "state=" ++ reprStr current ++ "; must be " ++ reprStr required
    ++ " for this command."

/-- Embedding of `BaseMockController.assert_state` (substate check unused by the built-in
handlers, which pass `enabled_substate=None`): raises `CommandError` with a
message naming the current and required state when the check fails. -/
def assert_state (s : CtrlState) (state : ControllerState) :
    Except String Unit :=
  if s.state ≠ state then
    .error (assert_state_msg s.state state)
  else
    .ok ()

/-- Outcome of one handler invocation: the new state, the optional predicted
duration, and the writes the handler itself performed — or a `CommandError`
message.  Each built-in handler checks its precondition before mutating, so
an error implies the state is untouched; `read_and_dispatch` therefore
continues from the pre-call state on the error path. -/
abbrev HandlerResult := Except String (CtrlState × Option ℚ × List Event)

/-- Embedding of `BaseMockController.do_enable`: requires STANDBY, transitions to ENABLED. -/
def do_enable (_command : Command) (s : CtrlState) : HandlerResult :=
  match assert_state s ControllerState.STANDBY with
  | .error msg => .error msg
  | .ok () => .ok (set_state s ControllerState.ENABLED, none, [])

/-- Embedding of `BaseMockController.do_standby`: requires ENABLED, transitions to STANDBY. -/
def do_standby (_command : Command) (s : CtrlState) : HandlerResult :=
  match assert_state s ControllerState.ENABLED with
  | .error msg => .error msg
  | .ok () => .ok (set_state s ControllerState.STANDBY, none, [])

/-- Embedding of `BaseMockController.do_clear_error`: accepted when the state is FAULT or
STANDBY ("clear error if there is one, and if it can be cleared"), then
transitions to STANDBY. -/
def do_clear_error (_command : Command) (s : CtrlState) : HandlerResult :=
  if s.state ≠ ControllerState.FAULT ∧ s.state ≠ ControllerState.STANDBY then
    .error ("state=" ++ reprStr s.state
      ++ "; must be FAULT or STANDBY for this command.")
  else
    .ok (set_state s ControllerState.STANDBY, none, [])

/-- Embedding of `BaseMockController.do_enable_drives`: sets `config.drives_enabled` from
`bool(command.param1)` and immediately writes a Config record. -/
def do_enable_drives (command : Command) (s : CtrlState) : HandlerResult :=
  let s' := { s with drives_enabled := command.param1 ≠ 0 }
  .ok (s', none, [Event.wroteConfig s'.drives_enabled])

/-- The four built-in handlers registered by `BaseMockController.__init__`. -/
inductive BaseHandler where
  | enable
  | standby
  | clearError
  | enableDrives
  deriving DecidableEq, Repr

/-- The command table `BaseMockController.__init__` builds (with
`extra_commands = {}`): `(SET_STATE, ENABLE) ↦ do_enable`,
`(SET_STATE, STANDBY) ↦ do_standby`, `(SET_STATE, CLEAR_ERROR) ↦
do_clear_error`, `ENABLE_DRIVES ↦ do_enable_drives`. -/
def command_table (key : CommandKey) : Option BaseHandler :=
  if key = .withParam SET_STATE SetStateParam.ENABLE then
    some .enable
  else if key = .withParam SET_STATE SetStateParam.STANDBY then
    some .standby
  else if key = .withParam SET_STATE SetStateParam.CLEAR_ERROR then
    some .clearError
  else if key = .plain ENABLE_DRIVES then
    some .enableDrives
  else
    none

/-- Dispatch to the handler a `BaseHandler` value denotes. -/
def run_handler (h : BaseHandler) (command : Command) (s : CtrlState) :
    HandlerResult :=
  match h with
  | .enable => do_enable command s
  | .standby => do_standby command s
  | .clearError => do_clear_error command s
  | .enableDrives => do_enable_drives command s

/-- The `CommandError` message for an unrecognized dispatch key. -/
def unrecognized_msg (command : Command) : String :=
  "Unrecognized command code " ++ toString command.code
    ++ "; param1=" ++ toString command.param1 ++ "..."

/-- Embedding of `BaseMockController.run_command`: look up the dispatch key; fail with an
`Unrecognized command code ...` error when absent; otherwise invoke the
handler and, if it succeeded, the `end_run_command` hook, returning the
handler's predicted duration.  The result pairs the `Except` outcome with
the trace of events that occurred (handler invocation, handler writes, hook
invocation) so that behaviour on the error paths stays observable. -/
def run_command (s : CtrlState) (command : Command) :
    Except String (CtrlState × Option ℚ) × List Event :=
  match command_table (get_command_key command) with
  | none => (.error (unrecognized_msg command), [])
  | some h =>
    match run_handler h command s with
    | .error msg => (.error msg, [Event.invokedHandler command.code])
    | .ok (s', duration, writes) =>
      (.ok (s', duration),
        Event.invokedHandler command.code :: writes
          ++ [Event.endRunCommand command.code])

/-- Embedding of `BaseMockController.write_command_status`: coerce a `None` duration to 0
and truncate the encoded reason to `COMMAND_STATUS_REASON_LEN`. -/
def write_command_status (counter : Nat) (status : CommandStatusCode)
    (duration : Option ℚ) (reason : String) : CommandStatusRec :=
  { counter := counter
    status := status
    duration := duration.getD 0
    reason := reason.data.take COMMAND_STATUS_REASON_LEN }

/-- Embedding of `BaseMockController.read_and_dispatch` for one already-read command:
run it; on a raised error write CommandStatus{NO_ACK, reason} (the source
handles `CommandError` and generic exceptions identically apart from
logging); on success coerce a `None` duration to 0 and write
CommandStatus{ACK, duration}. -/
def read_and_dispatch (s : CtrlState) (command : Command) :
    CtrlState × List Event :=
  match run_command s command with
  | (.error msg, events) =>
    (s, events ++ [Event.wroteStatus
      (write_command_status command.counter CommandStatusCode.NO_ACK
        none msg)])
  | (.ok (s', duration), events) =>
    let duration := duration.getD 0
    (s', events ++ [Event.wroteStatus
      (write_command_status command.counter CommandStatusCode.ACK
        (some duration) "")])

/-- The read loop: dispatch a sequence of inbound commands in order,
threading the controller state and concatenating the event traces. -/
def dispatch_all (s : CtrlState) : List Command → CtrlState × List Event
  | [] => (s, [])
  | c :: rest =>
    let (s', events) := read_and_dispatch s c
    let (s'', events') := dispatch_all s' rest
    (s'', events ++ events')

/-- The CommandStatus records contained in an event trace, in order. -/
def statusesOf (events : List Event) : List CommandStatusRec :=
  events.filterMap fun e =>
    match e with
    | .wroteStatus rec => some rec
    | _ => none

/-- The status record `read_and_dispatch` writes for one command: NO_ACK
with the error's reason when `run_command` raised, ACK with the (coerced)
duration otherwise. -/
def step_status (s : CtrlState) (command : Command) : CommandStatusRec :=
  match (run_command s command).1 with
  | .error msg =>
    write_command_status command.counter CommandStatusCode.NO_ACK none msg
  | .ok (_, duration) =>
    write_command_status command.counter CommandStatusCode.ACK
      (some (duration.getD 0)) ""

/-- The controller state after one `read_and_dispatch` (unchanged when
`run_command` raised). -/
def next_state (s : CtrlState) (command : Command) : CtrlState :=
  match (run_command s command).1 with
  | .error _ => s
  | .ok (s', _) => s'

/-- One status per command in order, over the evolving state. -/
def expected_statuses (s : CtrlState) : List Command → List CommandStatusRec
  | [] => []
  | c :: rest => step_status s c :: expected_statuses (next_state s c) rest

/-! ### Frame header codec (`update_and_get_header`) -/

/-- Embedding of `structs.Header`: frame kind, TAI seconds / nanoseconds, counter
(modelled from the spec for the missing `structs` module; the timestamp
fields hold integers). -/
structure Header where
  frame_id : FrameId
  tai_sec : Int
  tai_nsec : Int
  counter : Nat
  deriving DecidableEq, Repr

/-- Truncation toward zero, the semantics of Python's `int(float)`. -/
def truncQ (q : ℚ) : Int :=
  if 0 ≤ q then ⌊q⌋ else ⌈q⌉

/-- Embedding of `BaseMockController.update_and_get_header`, with the retained headers
table passed explicitly and the wall clock (`utils.current_tai()`) an
exact-rational parameter: `math.modf` splits the time into fractional and
whole parts, `int(...)` truncates each, and both the stamped header and the
raw time are returned. -/
def update_and_get_header (headers : FrameId → Header) (frame_id : FrameId)
    (curr_tai : ℚ) : Header × ℚ :=
  let header := headers frame_id
  let tai_sec := truncQ curr_tai
  let tai_frac : ℚ := curr_tai - tai_sec
  ({ header with
      tai_sec := tai_sec
      tai_nsec := truncQ (tai_frac * 1000000000) },
    curr_tai)

/-! ### Telemetry/config publisher (`telemetry_loop`) -/

/-- The sequence of records one run of `telemetry_loop` writes, as a
function of the successive values of `self.connected` it observes:
observation 0 is the `if self.connected` guard before `write_config`, and
observations 1, 2, ... are the `while self.connected` checks, each `true`
check producing one Telemetry record.  `fuel` bounds the number of loop
iterations modelled (the loop itself has no bound; it stops at the first
`false` observation). -/
def telemetry_while_writes (connected : Nat → Bool) :
    Nat → Nat → List FrameId
  | _, 0 => []
  | k, fuel + 1 =>
    if connected k then
      FrameId.TELEMETRY :: telemetry_while_writes connected (k + 1) fuel
    else
      []

/-- See `telemetry_while_writes`: the full write sequence of one
`telemetry_loop` run, config first. -/
def telemetry_loop_writes (connected : Nat → Bool) (fuel : Nat) :
    List FrameId :=
  if connected 0 then
    FrameId.CONFIG :: telemetry_while_writes connected 1 fuel
  else
    []

/-- How the `try`/`except` ladder of `telemetry_loop` finished its body:
ran to completion, was cancelled, or raised some other exception. -/
inductive BodyOutcome where
  | completed
  | cancelled
  | failed (message : String)
  deriving DecidableEq, Repr

/-- What `telemetry_loop` itself does with each body outcome:
`except asyncio.CancelledError: raise` re-raises the cancellation, and the
final `except Exception` logs anything else and returns normally. -/
inductive LoopExit where
  | returned
  | raisedCancelled
  deriving DecidableEq, Repr

/-- The `try`/`except` ladder of `telemetry_loop`. -/
def telemetry_loop_exit : BodyOutcome → LoopExit
  | .completed => .returned
  | .cancelled => .raisedCancelled
  | .failed _ => .returned

/-! ### Connection lifecycle (`connect_callback`, `close_client`) -/

/-- The handle held in `self.telemetry_loop_task`: either the
already-completed future installed by `__init__`
(`utils.make_done_future()`) or the task created by `connect_callback`,
identified by its index in the list of all created tasks. -/
inductive TaskHandle where
  | doneFuture
  | created (idx : Nat)
  deriving DecidableEq, Repr

/-- The lifecycle-relevant engine state: the controller state, the
configured initial state, the running flag of every telemetry task ever
created (index order), and the current task handle.  Task cancellation is
modelled as synchronous (`Task.cancel` immediately stops the task). -/
structure Engine where
  ctrl : CtrlState
  initial_state : ControllerState
  tasks : List Bool
  handle : TaskHandle
  deriving DecidableEq, Repr

/-- Embedding of `self.telemetry_loop_task.cancel()`: a no-op on the done future,
otherwise stop the task the handle names. -/
def cancel_task (e : Engine) : Engine :=
  match e.handle with
  | .doneFuture => e
  | .created idx => { e with tasks := e.tasks.set idx false }

/-- Embedding of `BaseMockController.__init__` (the state the lifecycle model tracks):
`set_state(initial_state)` on a fresh controller, then install the done
future as the telemetry task handle. -/
def Engine.init (initial_state : ControllerState) : Engine :=
  { ctrl := set_state
      { state := ControllerState.STANDBY, enabled_substate := 0,
        drives_enabled := false } initial_state
    initial_state := initial_state
    tasks := []
    handle := .doneFuture }

/-- Embedding of `BaseMockController.connect_callback`: cancel the previous telemetry
task, then, only if a client is connected, create a new telemetry task. -/
def connect_callback (connected : Bool) (e : Engine) : Engine :=
  let e' := cancel_task e
  if connected then
    { e' with
        tasks := e'.tasks ++ [true]
        handle := .created e'.tasks.length }
  else
    e'

/-- Embedding of `BaseMockController.close_client`: cancel the telemetry task before
closing the client (the superclass call does not touch this state). -/
def close_client (e : Engine) : Engine :=
  cancel_task e

/-- The lifecycle events that drive the task-management state machine. -/
inductive LifeEvent where
  | connectionChange (connected : Bool)
  | closeClient
  deriving DecidableEq, Repr

/-- Apply one lifecycle event. -/
def apply_event (e : Engine) : LifeEvent → Engine
  | .connectionChange connected => connect_callback connected e
  | .closeClient => close_client e

/-- Run a sequence of lifecycle events from a given engine state. -/
def run_events (e : Engine) : List LifeEvent → Engine
  | [] => e
  | ev :: rest => run_events (apply_event e ev) rest

/-- Number of telemetry tasks currently running. -/
def running_count (e : Engine) : Nat :=
  e.tasks.count true

/-! ### Helper lemmas -/

theorem data_append (a b : String) : (a ++ b).data = a.data ++ b.data := by
  cases a; cases b; rfl

theorem take_reason_ne_nil (l : List Char) (h : l ≠ []) :
    l.take COMMAND_STATUS_REASON_LEN ≠ [] := by
  cases l with
  | nil => exact absurd rfl h
  | cons a t => simp [COMMAND_STATUS_REASON_LEN, List.take]

theorem assert_state_msg_data_ne (current required : ControllerState) :
    (assert_state_msg current required).data ≠ [] := by
  have hs : ("state=" : String).data = ['s', 't', 'a', 't', 'e', '='] := by
    decide
  simp [assert_state_msg, data_append, hs]

theorem statusesOf_append (a b : List Event) :
    statusesOf (a ++ b) = statusesOf a ++ statusesOf b := by
  simp [statusesOf, List.filterMap_append]

theorem run_handler_error_data (h : BaseHandler) (c : Command) (s : CtrlState)
    (msg : String) (he : run_handler h c s = .error msg) : msg.data ≠ [] := by
  cases h with
  | enable =>
    by_cases hs : s.state = ControllerState.STANDBY <;>
      simp [run_handler, do_enable, assert_state, hs] at he
    subst he
    exact assert_state_msg_data_ne _ _
  | standby =>
    by_cases hs : s.state = ControllerState.ENABLED <;>
      simp [run_handler, do_standby, assert_state, hs] at he
    subst he
    exact assert_state_msg_data_ne _ _
  | clearError =>
    by_cases hf : s.state = ControllerState.FAULT <;>
      by_cases hst : s.state = ControllerState.STANDBY <;>
        simp [run_handler, do_clear_error, hf, hst] at he
    subst he
    have hs : ("state=" : String).data = ['s', 't', 'a', 't', 'e', '='] := by
      decide
    simp [data_append, hs]
  | enableDrives => simp [run_handler, do_enable_drives] at he

theorem unrecognized_msg_data_ne (c : Command) :
    (unrecognized_msg c).data ≠ [] := by
  simp [unrecognized_msg, data_append]

theorem statusesOf_invoked_cons (k : Nat) (l : List Event) :
    statusesOf (Event.invokedHandler k :: l) = statusesOf l := rfl

theorem statusesOf_endRun (k : Nat) :
    statusesOf [Event.endRunCommand k] = [] := rfl

theorem statusesOf_wroteStatus (rec : CommandStatusRec) :
    statusesOf [Event.wroteStatus rec] = [rec] := rfl

theorem run_command_error_data (s : CtrlState) (c : Command) (msg : String)
    (he : (run_command s c).1 = .error msg) : msg.data ≠ [] := by
  cases ht : command_table (get_command_key c) with
  | none =>
    simp [run_command, ht] at he
    subst he
    exact unrecognized_msg_data_ne c
  | some h =>
    cases hr : run_handler h c s with
    | error m =>
      simp [run_command, ht, hr] at he
      subst he
      exact run_handler_error_data h c s m hr
    | ok r =>
      obtain ⟨s', d, evs⟩ := r
      simp [run_command, ht, hr] at he

theorem run_handler_duration_none (h : BaseHandler) (c : Command)
    (s s' : CtrlState) (d : Option ℚ) (evs : List Event)
    (he : run_handler h c s = .ok (s', d, evs)) : d = none := by
  cases h with
  | enable =>
    by_cases hs : s.state = ControllerState.STANDBY <;>
      simp [run_handler, do_enable, assert_state, hs] at he
    exact he.2.1.symm
  | standby =>
    by_cases hs : s.state = ControllerState.ENABLED <;>
      simp [run_handler, do_standby, assert_state, hs] at he
    exact he.2.1.symm
  | clearError =>
    by_cases hf : s.state = ControllerState.FAULT
    · simp [run_handler, do_clear_error, hf] at he
      exact he.2.1.symm
    · by_cases hst : s.state = ControllerState.STANDBY
      · simp [run_handler, do_clear_error, hf, hst] at he
        exact he.2.1.symm
      · simp [run_handler, do_clear_error, hf, hst] at he
  | enableDrives =>
    simp [run_handler, do_enable_drives] at he
    exact he.2.1.symm

theorem run_handler_no_status (h : BaseHandler) (c : Command)
    (s s' : CtrlState) (d : Option ℚ) (evs : List Event)
    (he : run_handler h c s = .ok (s', d, evs)) : statusesOf evs = [] := by
  cases h with
  | enable =>
    by_cases hs : s.state = ControllerState.STANDBY <;>
      simp [run_handler, do_enable, assert_state, hs] at he
    rw [he.2.2]
    rfl
  | standby =>
    by_cases hs : s.state = ControllerState.ENABLED <;>
      simp [run_handler, do_standby, assert_state, hs] at he
    rw [he.2.2]
    rfl
  | clearError =>
    by_cases hf : s.state = ControllerState.FAULT
    · simp [run_handler, do_clear_error, hf] at he
      rw [he.2.2]
      rfl
    · by_cases hst : s.state = ControllerState.STANDBY
      · simp [run_handler, do_clear_error, hf, hst] at he
        rw [he.2.2]
        rfl
      · simp [run_handler, do_clear_error, hf, hst] at he
  | enableDrives =>
    simp [run_handler, do_enable_drives] at he
    rw [← he.2.2]
    rfl

theorem run_command_no_status (s : CtrlState) (c : Command) :
    statusesOf (run_command s c).2 = [] := by
  cases ht : command_table (get_command_key c) with
  | none => simp [run_command, ht, statusesOf]
  | some h =>
    cases hr : run_handler h c s with
    | error m => simp [run_command, ht, hr, statusesOf]
    | ok r =>
      obtain ⟨s', d, evs⟩ := r
      have hno := run_handler_no_status h c s s' d evs hr
      simp only [run_command, ht, hr]
      show statusesOf (evs ++ [Event.endRunCommand c.code]) = []
      rw [statusesOf_append, hno, statusesOf_endRun]
      rfl

theorem read_and_dispatch_fst (s : CtrlState) (c : Command) :
    (read_and_dispatch s c).1 = next_state s c := by
  cases he : (run_command s c) with
  | mk r evs =>
    cases r with
    | error msg => simp [read_and_dispatch, next_state, he]
    | ok p =>
      obtain ⟨s', d⟩ := p
      simp [read_and_dispatch, next_state, he]

theorem read_and_dispatch_statuses (s : CtrlState) (c : Command) :
    statusesOf (read_and_dispatch s c).2 = [step_status s c] := by
  have hno := run_command_no_status s c
  cases he : (run_command s c) with
  | mk r evs =>
    rw [he] at hno
    cases r with
    | error msg =>
      simp only [read_and_dispatch, step_status, he]
      rw [statusesOf_append, hno, statusesOf_wroteStatus]
      rfl
    | ok p =>
      obtain ⟨s', d⟩ := p
      simp only [read_and_dispatch, step_status, he]
      rw [statusesOf_append, hno, statusesOf_wroteStatus]
      rfl

theorem next_state_shape (s : CtrlState) (c : Command) :
    ((next_state s c).state = s.state ∧
      (next_state s c).enabled_substate = s.enabled_substate) ∨
    ∃ st, next_state s c = set_state s st := by
  cases ht : command_table (get_command_key c) with
  | none => simp [next_state, run_command, ht]
  | some h =>
    cases hr : run_handler h c s with
    | error m => simp [next_state, run_command, ht, hr]
    | ok r =>
      obtain ⟨s', d, evs⟩ := r
      have hns : next_state s c = s' := by
        simp [next_state, run_command, ht, hr]
      cases h with
      | enable =>
        by_cases hs : s.state = ControllerState.STANDBY <;>
          simp [run_handler, do_enable, assert_state, hs] at hr
        exact Or.inr ⟨ControllerState.ENABLED, hns.trans hr.1.symm⟩
      | standby =>
        by_cases hs : s.state = ControllerState.ENABLED <;>
          simp [run_handler, do_standby, assert_state, hs] at hr
        exact Or.inr ⟨ControllerState.STANDBY, hns.trans hr.1.symm⟩
      | clearError =>
        by_cases hf : s.state = ControllerState.FAULT
        · simp [run_handler, do_clear_error, hf] at hr
          exact Or.inr ⟨ControllerState.STANDBY, hns.trans hr.1.symm⟩
        · by_cases hst : s.state = ControllerState.STANDBY
          · simp [run_handler, do_clear_error, hf, hst] at hr
            exact Or.inr ⟨ControllerState.STANDBY, hns.trans hr.1.symm⟩
          · simp [run_handler, do_clear_error, hf, hst] at hr
      | enableDrives =>
        simp [run_handler, do_enable_drives] at hr
        rw [hns, ← hr.1]
        exact Or.inl ⟨rfl, rfl⟩

theorem str_assoc (a b c : String) : (a ++ b) ++ c = a ++ (b ++ c) := by
  cases a with
  | mk la =>
    cases b with
    | mk lb =>
      cases c with
      | mk lc => exact congrArg String.mk (List.append_assoc la lb lc)

theorem step_status_of_error (s : CtrlState) (c : Command) (msg : String)
    (he : (run_command s c).1 = .error msg) :
    step_status s c =
      write_command_status c.counter CommandStatusCode.NO_ACK none msg := by
  simp [step_status, he]

theorem next_state_of_error (s : CtrlState) (c : Command) (msg : String)
    (he : (run_command s c).1 = .error msg) : next_state s c = s := by
  simp [next_state, he]

theorem reject_conclusion (s : CtrlState) (c : Command) (msg : String)
    (he : (run_command s c).1 = .error msg) :
    (∃ m, (run_command s c).1 = .error m) ∧
    (∃ rec, statusesOf (read_and_dispatch s c).2 = [rec] ∧
      rec.status = CommandStatusCode.NO_ACK ∧ rec.reason ≠ []) ∧
    (read_and_dispatch s c).1.state = s.state ∧
    (read_and_dispatch s c).1.enabled_substate = s.enabled_substate := by
  have hdata := run_command_error_data s c msg he
  have hstep := step_status_of_error s c msg he
  have hstate : (read_and_dispatch s c).1 = s :=
    (read_and_dispatch_fst s c).trans (next_state_of_error s c msg he)
  refine ⟨⟨msg, he⟩,
    ⟨step_status s c, read_and_dispatch_statuses s c, ?_, ?_⟩, ?_, ?_⟩
  · rw [hstep]
    rfl
  · rw [hstep]
    exact take_reason_ne_nil _ hdata
  · rw [hstate]
  · rw [hstate]

/-- C3: `set_state s` sets the controller state to `s`, sets the enabled
substate to STATIONARY when `s = ENABLED` and to the no-substate value 0
for every other `s`, never fails (it is a total function), and it is the
only operation that changes the state machine: the state/substate after any
dispatched command is either unchanged or the image of a `set_state` call. -/
theorem claim_C3 :
    (∀ (s : CtrlState) (st : ControllerState),
      (set_state s st).state = st ∧
      (set_state s st).enabled_substate =
        (if st = ControllerState.ENABLED then STATIONARY else 0)) ∧
    (∀ (s : CtrlState) (c : Command),
      ((next_state s c).state = s.state ∧
        (next_state s c).enabled_substate = s.enabled_substate) ∨
      ∃ st, next_state s c = set_state s st) := by
  constructor
  · intro s st
    exact ⟨rfl, rfl⟩
  · exact next_state_shape

/-- C4: `clear_error` dispatched from STANDBY is acknowledged (ACK) and
leaves the state STANDBY; from FAULT it is acknowledged and the state
becomes STANDBY; from ENABLED it is rejected (NO_ACK) and the state stays
ENABLED. -/
theorem claim_C4 (c : Command) (sub : Nat) (dr : Bool)
    (hkey : get_command_key c =
      CommandKey.withParam SET_STATE SetStateParam.CLEAR_ERROR) :
    (((statusesOf
        (read_and_dispatch ⟨ControllerState.STANDBY, sub, dr⟩ c).2).map
          CommandStatusRec.status = [CommandStatusCode.ACK]) ∧
      (read_and_dispatch ⟨ControllerState.STANDBY, sub, dr⟩ c).1.state =
        ControllerState.STANDBY) ∧
    (((statusesOf
        (read_and_dispatch ⟨ControllerState.FAULT, sub, dr⟩ c).2).map
          CommandStatusRec.status = [CommandStatusCode.ACK]) ∧
      (read_and_dispatch ⟨ControllerState.FAULT, sub, dr⟩ c).1.state =
        ControllerState.STANDBY) ∧
    (((statusesOf
        (read_and_dispatch ⟨ControllerState.ENABLED, sub, dr⟩ c).2).map
          CommandStatusRec.status = [CommandStatusCode.NO_ACK]) ∧
      (read_and_dispatch ⟨ControllerState.ENABLED, sub, dr⟩ c).1.state =
        ControllerState.ENABLED) := by
  have ht : command_table
      (CommandKey.withParam SET_STATE SetStateParam.CLEAR_ERROR) =
      some BaseHandler.clearError := rfl
  refine ⟨⟨?_, ?_⟩, ⟨?_, ?_⟩, ?_, ?_⟩ <;>
    simp [read_and_dispatch_statuses, read_and_dispatch_fst, step_status,
      next_state, run_command, hkey, ht, run_handler, do_clear_error,
      set_state, write_command_status]

/-- Witness for C4 at a concrete clear_error command. -/
theorem claim_C4_witness :
    ((statusesOf
      (read_and_dispatch ⟨ControllerState.FAULT, 0, false⟩
        ⟨SET_STATE, 5, SetStateParam.CLEAR_ERROR, 0, 0, 0, 0, 0⟩).2).map
        CommandStatusRec.status = [CommandStatusCode.ACK]) ∧
    (read_and_dispatch ⟨ControllerState.FAULT, 0, false⟩
      ⟨SET_STATE, 5, SetStateParam.CLEAR_ERROR, 0, 0, 0, 0, 0⟩).1.state =
      ControllerState.STANDBY := by
  have h := claim_C4 ⟨SET_STATE, 5, SetStateParam.CLEAR_ERROR, 0, 0, 0, 0, 0⟩
    0 false (by decide)
  exact ⟨h.2.1.1, h.2.1.2⟩

/-- C1: when a built-in state-transition handler's state precondition does
not hold (enable when the state is not STANDBY; standby when the state is
not ENABLED; clear_error when the state is neither FAULT nor STANDBY),
`run_command` raises the command-rejection error, `read_and_dispatch`
writes exactly one CommandStatus with status NO_ACK and a non-empty
reason, and the controller state and enabled substate after the dispatch
equal their values before it. -/
theorem claim_C1 (s : CtrlState) (c : Command)
    (h : (get_command_key c =
            CommandKey.withParam SET_STATE SetStateParam.ENABLE ∧
          s.state ≠ ControllerState.STANDBY) ∨
         (get_command_key c =
            CommandKey.withParam SET_STATE SetStateParam.STANDBY ∧
          s.state ≠ ControllerState.ENABLED) ∨
         (get_command_key c =
            CommandKey.withParam SET_STATE SetStateParam.CLEAR_ERROR ∧
          s.state ≠ ControllerState.FAULT ∧
          s.state ≠ ControllerState.STANDBY)) :
    (∃ m, (run_command s c).1 = .error m) ∧
    (∃ rec, statusesOf (read_and_dispatch s c).2 = [rec] ∧
      rec.status = CommandStatusCode.NO_ACK ∧ rec.reason ≠ []) ∧
    (read_and_dispatch s c).1.state = s.state ∧
    (read_and_dispatch s c).1.enabled_substate = s.enabled_substate := by
  rcases h with ⟨hkey, hs⟩ | ⟨hkey, hs⟩ | ⟨hkey, hf, hst⟩
  · have ht : command_table (get_command_key c) = some BaseHandler.enable := by
      rw [hkey]
      rfl
    have hr : run_handler BaseHandler.enable c s =
        .error (assert_state_msg s.state ControllerState.STANDBY) := by
      simp [run_handler, do_enable, assert_state, hs]
    have herr : (run_command s c).1 =
        .error (assert_state_msg s.state ControllerState.STANDBY) := by
      simp [run_command, ht, hr]
    exact reject_conclusion s c _ herr
  · have ht : command_table (get_command_key c) =
        some BaseHandler.standby := by
      rw [hkey]
      rfl
    have hr : run_handler BaseHandler.standby c s =
        .error (assert_state_msg s.state ControllerState.ENABLED) := by
      simp [run_handler, do_standby, assert_state, hs]
    have herr : (run_command s c).1 =
        .error (assert_state_msg s.state ControllerState.ENABLED) := by
      simp [run_command, ht, hr]
    exact reject_conclusion s c _ herr
  · have ht : command_table (get_command_key c) =
        some BaseHandler.clearError := by
      rw [hkey]
      rfl
    have hr : run_handler BaseHandler.clearError c s =
        .error ("state=" ++ reprStr s.state
          ++ "; must be FAULT or STANDBY for this command.") := by
      simp [run_handler, do_clear_error, hf, hst]
    have herr : (run_command s c).1 =
        .error ("state=" ++ reprStr s.state
          ++ "; must be FAULT or STANDBY for this command.") := by
      simp [run_command, ht, hr]
    exact reject_conclusion s c _ herr

/-- Witness for C1: the enable command dispatched from ENABLED is rejected
with a non-empty reason and leaves state and substate unchanged. -/
theorem claim_C1_witness :
    (∃ m, (run_command ⟨ControllerState.ENABLED, 0, false⟩
      ⟨SET_STATE, 3, SetStateParam.ENABLE, 0, 0, 0, 0, 0⟩).1 = .error m) ∧
    (∃ rec, statusesOf (read_and_dispatch ⟨ControllerState.ENABLED, 0, false⟩
        ⟨SET_STATE, 3, SetStateParam.ENABLE, 0, 0, 0, 0, 0⟩).2 = [rec] ∧
      rec.status = CommandStatusCode.NO_ACK ∧ rec.reason ≠ []) ∧
    (read_and_dispatch ⟨ControllerState.ENABLED, 0, false⟩
      ⟨SET_STATE, 3, SetStateParam.ENABLE, 0, 0, 0, 0, 0⟩).1.state =
      ControllerState.ENABLED ∧
    (read_and_dispatch ⟨ControllerState.ENABLED, 0, false⟩
      ⟨SET_STATE, 3, SetStateParam.ENABLE, 0, 0, 0, 0, 0⟩).1.enabled_substate
      = 0 :=
  claim_C1 ⟨ControllerState.ENABLED, 0, false⟩
    ⟨SET_STATE, 3, SetStateParam.ENABLE, 0, 0, 0, 0, 0⟩
    (Or.inl ⟨by decide, by decide⟩)

/-- C7: a command whose dispatch key (the bare code, or (code, int(param1))
for SET_STATE / SET_ENABLED_SUBSTATE) is absent from the command table
makes `run_command` fail with an empty event trace — no handler and no
`end_run_command` hook is invoked — with an error message containing the
offending command code, and the dispatch loop surfaces it as a single
NO_ACK CommandStatus, with the controller state unchanged. -/
theorem claim_C7 (s : CtrlState) (c : Command)
    (h : command_table (get_command_key c) = none) :
    run_command s c = (.error (unrecognized_msg c), []) ∧
    (∃ pre post, unrecognized_msg c = pre ++ toString c.code ++ post) ∧
    statusesOf (read_and_dispatch s c).2 =
      [write_command_status c.counter CommandStatusCode.NO_ACK none
        (unrecognized_msg c)] ∧
    (read_and_dispatch s c).1 = s ∧
    ∀ e ∈ (read_and_dispatch s c).2, ∀ k,
      e ≠ Event.invokedHandler k ∧ e ≠ Event.endRunCommand k := by
  have hrc : run_command s c = (.error (unrecognized_msg c), []) := by
    simp [run_command, h]
  have he : (run_command s c).1 = .error (unrecognized_msg c) := by
    rw [hrc]
  refine ⟨hrc, ?_, ?_, ?_, ?_⟩
  · refine ⟨"Unrecognized command code ",
      "; param1=" ++ toString c.param1 ++ "...", ?_⟩
    have hext : ∀ x y : String, x.data = y.data → x = y := by
      intro x y hxy
      cases x with
      | mk lx =>
        cases y with
        | mk ly => exact congrArg String.mk hxy
    apply hext
    simp [unrecognized_msg, data_append, List.append_assoc]
  · rw [read_and_dispatch_statuses, step_status_of_error s c _ he]
  · exact (read_and_dispatch_fst s c).trans (next_state_of_error s c _ he)
  · have hev : (read_and_dispatch s c).2 =
        [Event.wroteStatus (write_command_status c.counter
          CommandStatusCode.NO_ACK none (unrecognized_msg c))] := by
      simp [read_and_dispatch, hrc]
    rw [hev]
    intro e hmem k
    simp at hmem
    subst hmem
    exact ⟨by simp, by simp⟩

/-- Witness for C7: an unregistered opcode (99) from STANDBY. -/
theorem claim_C7_witness :
    run_command ⟨ControllerState.STANDBY, 0, false⟩
      ⟨99, 7, 0, 0, 0, 0, 0, 0⟩ =
      (.error (unrecognized_msg ⟨99, 7, 0, 0, 0, 0, 0, 0⟩), []) ∧
    (read_and_dispatch ⟨ControllerState.STANDBY, 0, false⟩
      ⟨99, 7, 0, 0, 0, 0, 0, 0⟩).1 = ⟨ControllerState.STANDBY, 0, false⟩ := by
  have h := claim_C7 ⟨ControllerState.STANDBY, 0, false⟩
    ⟨99, 7, 0, 0, 0, 0, 0, 0⟩ (by decide)
  exact ⟨h.1, h.2.2.2.1⟩

theorem dispatch_all_cons (s : CtrlState) (c : Command)
    (rest : List Command) :
    dispatch_all s (c :: rest) =
      ((dispatch_all (next_state s c) rest).1,
       (read_and_dispatch s c).2 ++ (dispatch_all (next_state s c) rest).2)
    := by
  have hfst := read_and_dispatch_fst s c
  cases h : read_and_dispatch s c with
  | mk s1 ev =>
    rw [h] at hfst
    simp only at hfst
    subst hfst
    simp only [dispatch_all, h]

theorem dispatch_all_statuses (s : CtrlState) (cmds : List Command) :
    statusesOf (dispatch_all s cmds).2 = expected_statuses s cmds := by
  induction cmds generalizing s with
  | nil => rfl
  | cons c rest ih =>
    rw [dispatch_all_cons, expected_statuses]
    simp only [statusesOf_append, read_and_dispatch_statuses, ih]
    rfl

theorem step_status_counter (s : CtrlState) (c : Command) :
    (step_status s c).counter = c.counter := by
  unfold step_status
  cases h : (run_command s c).1 with
  | error m => rfl
  | ok p =>
    obtain ⟨s', d⟩ := p
    rfl

theorem expected_statuses_counters (s : CtrlState) (cmds : List Command) :
    (expected_statuses s cmds).map CommandStatusRec.counter =
      cmds.map Command.counter := by
  induction cmds generalizing s with
  | nil => rfl
  | cons c rest ih =>
    rw [expected_statuses]
    simp [step_status_counter, ih]

theorem run_command_duration_none (s : CtrlState) (c : Command)
    (s' : CtrlState) (d : Option ℚ)
    (h : (run_command s c).1 = .ok (s', d)) : d = none := by
  cases ht : command_table (get_command_key c) with
  | none => simp [run_command, ht] at h
  | some hh =>
    cases hr : run_handler hh c s with
    | error m => simp [run_command, ht, hr] at h
    | ok r =>
      obtain ⟨s'', d'', evs⟩ := r
      simp [run_command, ht, hr] at h
      rw [← h.2]
      exact run_handler_duration_none hh c s s'' d'' evs hr

theorem step_status_wf (s : CtrlState) (c : Command) :
    ((step_status s c).reason ≠ [] ↔
      (step_status s c).status = CommandStatusCode.NO_ACK) ∧
    (step_status s c).reason.length ≤ COMMAND_STATUS_REASON_LEN ∧
    ((step_status s c).status = CommandStatusCode.ACK →
      (step_status s c).duration = 0 ∧ 0 ≤ (step_status s c).duration) := by
  unfold step_status
  cases h : (run_command s c).1 with
  | error m =>
    have hd := run_command_error_data s c m h
    refine ⟨?_, ?_, ?_⟩
    · simp [write_command_status, take_reason_ne_nil m.data hd]
    · simp [write_command_status, List.length_take_le]
    · intro hs
      simp [write_command_status] at hs
  | ok p =>
    obtain ⟨s', d⟩ := p
    have hdn := run_command_duration_none s c s' d h
    subst hdn
    refine ⟨?_, ?_, ?_⟩
    · simp [write_command_status]
    · simp [write_command_status]
    · intro hs
      simp [write_command_status]

/-- C2: over any command sequence (valid and invalid interleaved), the
dispatch loop writes exactly one CommandStatus per command, in the order
the commands were read, each echoing that command's counter in its header,
NO_ACK exactly when `run_command` raised (`expected_statuses` is one
`step_status` per command over the evolving state, and `step_status` is
NO_ACK on the error branch of `run_command` and ACK otherwise). -/
theorem claim_C2 (s : CtrlState) (cmds : List Command) :
    statusesOf (dispatch_all s cmds).2 = expected_statuses s cmds ∧
    (statusesOf (dispatch_all s cmds).2).length = cmds.length ∧
    (statusesOf (dispatch_all s cmds).2).map CommandStatusRec.counter =
      cmds.map Command.counter := by
  have h := dispatch_all_statuses s cmds
  have hc := expected_statuses_counters s cmds
  refine ⟨h, ?_, h ▸ hc⟩
  have := congrArg List.length (h ▸ hc)
  simpa using this

/-- C6: every CommandStatus the dispatch loop writes is well-formed: the
reason is non-empty iff the status is NO_ACK, the stored reason never
exceeds COMMAND_STATUS_REASON_LEN (truncation, not failure), and an ACK
carries duration 0 ≥ 0 (the built-in handlers return no duration, which is
acknowledged as 0). -/
theorem claim_C6 (s : CtrlState) (cmds : List Command) :
    ∀ rec ∈ statusesOf (dispatch_all s cmds).2,
      (rec.reason ≠ [] ↔ rec.status = CommandStatusCode.NO_ACK) ∧
      rec.reason.length ≤ COMMAND_STATUS_REASON_LEN ∧
      (rec.status = CommandStatusCode.ACK →
        rec.duration = 0 ∧ 0 ≤ rec.duration) := by
  rw [dispatch_all_statuses]
  induction cmds generalizing s with
  | nil => intro rec hrec; simp [expected_statuses] at hrec
  | cons c rest ih =>
    intro rec hrec
    rw [expected_statuses] at hrec
    rcases List.mem_cons.mp hrec with hhead | htail
    · subst hhead
      exact step_status_wf s c
    · exact ih (next_state s c) rec htail

/-- Witness for C6: the records written for an accepted enable command
followed by a rejected one. -/
theorem claim_C6_witness :
    (∀ rec ∈ statusesOf (dispatch_all ⟨ControllerState.STANDBY, 0, false⟩
        [⟨SET_STATE, 1, SetStateParam.ENABLE, 0, 0, 0, 0, 0⟩,
         ⟨SET_STATE, 2, SetStateParam.ENABLE, 0, 0, 0, 0, 0⟩]).2,
      (rec.reason ≠ [] ↔ rec.status = CommandStatusCode.NO_ACK) ∧
      rec.reason.length ≤ COMMAND_STATUS_REASON_LEN ∧
      (rec.status = CommandStatusCode.ACK →
        rec.duration = 0 ∧ 0 ≤ rec.duration)) ∧
    (statusesOf (dispatch_all ⟨ControllerState.STANDBY, 0, false⟩
        [⟨SET_STATE, 1, SetStateParam.ENABLE, 0, 0, 0, 0, 0⟩,
         ⟨SET_STATE, 2, SetStateParam.ENABLE, 0, 0, 0, 0, 0⟩]).2).map
      CommandStatusRec.status =
      [CommandStatusCode.ACK, CommandStatusCode.NO_ACK] := by
  constructor
  · exact claim_C6 ⟨ControllerState.STANDBY, 0, false⟩
      [⟨SET_STATE, 1, SetStateParam.ENABLE, 0, 0, 0, 0, 0⟩,
       ⟨SET_STATE, 2, SetStateParam.ENABLE, 0, 0, 0, 0, 0⟩]
  · decide

theorem cancel_task_ctrl (e : Engine) : (cancel_task e).ctrl = e.ctrl := by
  cases h : e.handle <;> simp [cancel_task, h]

theorem cancel_task_handle (e : Engine) : (cancel_task e).handle = e.handle := by
  cases h : e.handle <;> simp [cancel_task, h]

theorem cancel_task_length (e : Engine) :
    (cancel_task e).tasks.length = e.tasks.length := by
  cases h : e.handle <;> simp [cancel_task, h]

theorem connect_callback_ctrl (b : Bool) (e : Engine) :
    (connect_callback b e).ctrl = e.ctrl := by
  cases b <;> simp [connect_callback, cancel_task_ctrl]

/-- Counterexample to C5 as stated: an engine configured with initial state
STANDBY whose controller was driven to ENABLED does NOT return to its
configured initial state when a new client connects —
`connect_callback` never calls `set_state`. -/
theorem claim_C5_counterexample :
    (connect_callback true
      { ctrl := (read_and_dispatch (Engine.init ControllerState.STANDBY).ctrl
          ⟨SET_STATE, 1, SetStateParam.ENABLE, 0, 0, 0, 0, 0⟩).1,
        initial_state := ControllerState.STANDBY,
        tasks := [],
        handle := TaskHandle.doneFuture }).ctrl.state =
      ControllerState.ENABLED ∧
    ({ ctrl := (read_and_dispatch (Engine.init ControllerState.STANDBY).ctrl
          ⟨SET_STATE, 1, SetStateParam.ENABLE, 0, 0, 0, 0, 0⟩).1,
       initial_state := ControllerState.STANDBY,
       tasks := [],
       handle := TaskHandle.doneFuture } : Engine).initial_state =
      ControllerState.STANDBY ∧
    ControllerState.ENABLED ≠ ControllerState.STANDBY := by
  decide

/-- C5 (amended): `set_state` with the configured initial state runs once,
at engine construction — not on each new connection.  `connect_callback`
leaves the controller state unchanged; it only cancels the previous
telemetry task and, exactly when a client is connected, starts a new one. -/
theorem claim_C5 (st : ControllerState) (e : Engine) :
    (Engine.init st).ctrl.state = st ∧
    (Engine.init st).ctrl =
      set_state ⟨ControllerState.STANDBY, 0, false⟩ st ∧
    (connect_callback true e).ctrl = e.ctrl ∧
    (connect_callback false e).ctrl = e.ctrl ∧
    (connect_callback true e).tasks = (cancel_task e).tasks ++ [true] ∧
    connect_callback false e = cancel_task e := by
  refine ⟨rfl, rfl, connect_callback_ctrl true e, connect_callback_ctrl
    false e, ?_, ?_⟩
  · simp [connect_callback]
  · simp [connect_callback]

/-- C8: one run of the telemetry loop writes nothing when already
disconnected at its start, and otherwise writes exactly one Config record
followed only by Telemetry records (one per connected check); the loop's
`try`/`except` ladder re-raises exactly cancellation and absorbs every
other exception. -/
theorem claim_C8 (connected : Nat → Bool) (fuel : Nat) (o : BodyOutcome) :
    (connected 0 = true → ∃ n, telemetry_loop_writes connected fuel =
      FrameId.CONFIG :: List.replicate n FrameId.TELEMETRY) ∧
    (connected 0 = false → telemetry_loop_writes connected fuel = []) ∧
    (telemetry_loop_exit o = LoopExit.raisedCancelled ↔
      o = BodyOutcome.cancelled) := by
  have hwhile : ∀ (f k : Nat), ∃ n,
      telemetry_while_writes connected k f =
        List.replicate n FrameId.TELEMETRY := by
    intro f
    induction f with
    | zero => exact fun k => ⟨0, rfl⟩
    | succ m ih =>
      intro k
      by_cases hk : connected k
      · obtain ⟨n, hn⟩ := ih (k + 1)
        exact ⟨n + 1, by simp [telemetry_while_writes, hk, hn,
          List.replicate_succ]⟩
      · exact ⟨0, by simp [telemetry_while_writes, hk]⟩
  refine ⟨?_, ?_, ?_⟩
  · intro h0
    obtain ⟨n, hn⟩ := hwhile fuel 1
    exact ⟨n, by simp [telemetry_loop_writes, h0, hn]⟩
  · intro h0
    simp [telemetry_loop_writes, h0]
  · cases o <;> simp [telemetry_loop_exit]

/-- Witness for C8: a connection that drops after two telemetry checks. -/
theorem claim_C8_witness :
    (∃ n, telemetry_loop_writes (fun k => decide (k < 3)) 10 =
      FrameId.CONFIG :: List.replicate n FrameId.TELEMETRY) ∧
    (telemetry_loop_writes (fun _ => false) 10 = []) ∧
    telemetry_loop_exit BodyOutcome.cancelled = LoopExit.raisedCancelled := by
  refine ⟨(claim_C8 (fun k => decide (k < 3)) 10 BodyOutcome.cancelled).1
    (by decide), (claim_C8 (fun _ => false) 10
      BodyOutcome.cancelled).2.1 rfl, ?_⟩
  exact (claim_C8 (fun _ => false) 10 BodyOutcome.cancelled).2.2.mpr rfl

/-- C9: for every frame kind and non-negative time `t`,
`update_and_get_header` returns the retained header for that kind with its
frame_id (and counter) untouched, tai_sec the whole-seconds part of `t`,
tai_nsec the remaining fraction in nanoseconds with
0 ≤ tai_nsec ≤ 999_999_999, and returns `t` itself for reuse. -/
theorem claim_C9 (headers : FrameId → Header) (frame_id : FrameId) (t : ℚ)
    (ht : 0 ≤ t) :
    (update_and_get_header headers frame_id t).2 = t ∧
    (update_and_get_header headers frame_id t).1.frame_id =
      (headers frame_id).frame_id ∧
    (update_and_get_header headers frame_id t).1.counter =
      (headers frame_id).counter ∧
    (update_and_get_header headers frame_id t).1.tai_sec = ⌊t⌋ ∧
    (update_and_get_header headers frame_id t).1.tai_nsec =
      ⌊(t - ⌊t⌋) * 1000000000⌋ ∧
    0 ≤ (update_and_get_header headers frame_id t).1.tai_nsec ∧
    (update_and_get_header headers frame_id t).1.tai_nsec ≤ 999999999 := by
  have htr : truncQ t = ⌊t⌋ := by simp [truncQ, ht]
  have hfr0 : (0 : ℚ) ≤ t - ⌊t⌋ := sub_nonneg.mpr (Int.floor_le t)
  have hfr1 : t - ⌊t⌋ < 1 := by
    have := Int.lt_floor_add_one t
    linarith
  have hnn : (0 : ℚ) ≤ (t - ⌊t⌋) * 1000000000 :=
    mul_nonneg hfr0 (by norm_num)
  have htr2 : truncQ ((t - truncQ t) * 1000000000) =
      ⌊(t - ⌊t⌋) * 1000000000⌋ := by
    rw [htr]
    simp [truncQ, hnn]
  have hup : (0 : ℤ) ≤ ⌊(t - ⌊t⌋) * 1000000000⌋ := Int.floor_nonneg.mpr hnn
  have hlt : ⌊(t - ⌊t⌋) * 1000000000⌋ < 1000000000 := by
    rw [Int.floor_lt]
    calc (t - ⌊t⌋) * 1000000000 < 1 * 1000000000 := by
          exact mul_lt_mul_of_pos_right hfr1 (by norm_num)
      _ = ((1000000000 : ℤ) : ℚ) := by norm_num
  refine ⟨rfl, rfl, rfl, ?_, ?_, ?_, ?_⟩
  · simpa [update_and_get_header] using htr
  · simpa [update_and_get_header] using htr2
  · rw [show (update_and_get_header headers frame_id t).1.tai_nsec =
      truncQ ((t - truncQ t) * 1000000000) from rfl, htr2]
    exact hup
  · rw [show (update_and_get_header headers frame_id t).1.tai_nsec =
      truncQ ((t - truncQ t) * 1000000000) from rfl, htr2]
    omega

/-- Witness for C9 at t = 7/2: tai_sec 3, tai_nsec 500_000_000. -/
theorem claim_C9_witness :
    (update_and_get_header (fun f => ⟨f, 0, 0, 0⟩) FrameId.TELEMETRY
      ((7 : ℚ) / 2)).1.tai_sec = ⌊((7 : ℚ) / 2)⌋ ∧
    0 ≤ (update_and_get_header (fun f => ⟨f, 0, 0, 0⟩) FrameId.TELEMETRY
      ((7 : ℚ) / 2)).1.tai_nsec ∧
    (update_and_get_header (fun f => ⟨f, 0, 0, 0⟩) FrameId.TELEMETRY
      ((7 : ℚ) / 2)).1.tai_nsec ≤ 999999999 := by
  have h := claim_C9 (fun f => ⟨f, 0, 0, 0⟩) FrameId.TELEMETRY
    ((7 : ℚ) / 2) (by norm_num)
  exact ⟨h.2.2.2.1, h.2.2.2.2.2.1, h.2.2.2.2.2.2⟩

theorem cancel_task_no_true (e : Engine)
    (h : ∀ i : Nat, e.tasks[i]? = some true →
      e.handle = TaskHandle.created i) :
    ∀ i : Nat, (cancel_task e).tasks[i]? ≠ some true := by
  intro i hi
  cases hh : e.handle with
  | doneFuture =>
    simp only [cancel_task, hh] at hi
    have := h i hi
    rw [hh] at this
    exact absurd this (by simp)
  | created j =>
    simp only [cancel_task, hh] at hi
    by_cases hij : j = i
    · subst hij
      rw [List.getElem?_set_self' ..] at hi
      cases hv : e.tasks[j]? <;> simp [hv] at hi
    · rw [List.getElem?_set_ne hij] at hi
      have := h i hi
      rw [hh] at this
      exact hij (by injection this)

theorem running_count_cancel (e : Engine)
    (h : ∀ i : Nat, e.tasks[i]? = some true →
      e.handle = TaskHandle.created i) :
    running_count (cancel_task e) = 0 := by
  rw [running_count, List.count_eq_zero]
  intro hmem
  obtain ⟨i, hi⟩ := List.getElem?_of_mem hmem
  exact cancel_task_no_true e h i hi

theorem apply_event_inv (e : Engine) (ev : LifeEvent)
    (h : ∀ i : Nat, e.tasks[i]? = some true →
      e.handle = TaskHandle.created i) :
    (∀ i : Nat, (apply_event e ev).tasks[i]? = some true →
      (apply_event e ev).handle = TaskHandle.created i) ∧
    running_count (apply_event e ev) ≤ 1 := by
  have hclose : (∀ i : Nat, (cancel_task e).tasks[i]? = some true →
      (cancel_task e).handle = TaskHandle.created i) ∧
      running_count (cancel_task e) ≤ 1 := by
    constructor
    · intro i hi
      exact absurd hi (cancel_task_no_true e h i)
    · rw [running_count_cancel e h]
      omega
  cases ev with
  | closeClient => exact hclose
  | connectionChange b =>
    cases b with
    | false =>
      have : apply_event e (LifeEvent.connectionChange false) =
          cancel_task e := by
        simp [apply_event, connect_callback]
      rw [this]
      exact hclose
    | true =>
      have hev : apply_event e (LifeEvent.connectionChange true) =
          { cancel_task e with
              tasks := (cancel_task e).tasks ++ [true]
              handle := TaskHandle.created (cancel_task e).tasks.length }
          := by
        simp [apply_event, connect_callback]
      rw [hev]
      constructor
      · intro i hi
        simp only at hi ⊢
        rcases lt_trichotomy i (cancel_task e).tasks.length with hlt | heq
          | hgt
        · rw [List.getElem?_append_left hlt] at hi
          exact absurd hi (cancel_task_no_true e h i)
        · rw [heq]
        · rw [List.getElem?_append_right (le_of_lt hgt)] at hi
          have hpos : 0 < i - (cancel_task e).tasks.length := by omega
          cases hk : i - (cancel_task e).tasks.length with
          | zero => omega
          | succ k =>
            rw [hk] at hi
            simp at hi
      · simp only [running_count, List.count_append]
        have h0 : (cancel_task e).tasks.count true = 0 :=
          running_count_cancel e h
        rw [h0]
        simp

/-- C10: at most one telemetry publisher task runs at any time: the handle
starts as an already-completed future with no created task, after any
sequence of connection changes and client closes at most one created task
is running, `close_client` is exactly a cancel, a connection callback with
no client connected creates no task, and cancelling with the done-future
handle is a safe no-op. -/
theorem claim_C10 (st : ControllerState) (evs : List LifeEvent) :
    (Engine.init st).handle = TaskHandle.doneFuture ∧
    running_count (Engine.init st) = 0 ∧
    running_count (run_events (Engine.init st) evs) ≤ 1 ∧
    (∀ e : Engine, close_client e = cancel_task e ∧
      (connect_callback false e).tasks.length = e.tasks.length ∧
      cancel_task { e with handle := TaskHandle.doneFuture } =
        { e with handle := TaskHandle.doneFuture }) := by
  have hrun : ∀ (evs' : List LifeEvent) (e : Engine),
      (∀ i : Nat, e.tasks[i]? = some true →
        e.handle = TaskHandle.created i) →
      running_count e ≤ 1 →
      running_count (run_events e evs') ≤ 1 := by
    intro evs'
    induction evs' with
    | nil => intro e _ hc; exact hc
    | cons ev rest ih =>
      intro e hP hc
      obtain ⟨hP', hc'⟩ := apply_event_inv e ev hP
      exact ih (apply_event e ev) hP' hc'
  refine ⟨rfl, rfl, ?_, ?_⟩
  · refine hrun evs (Engine.init st) ?_ ?_
    · intro i hi
      simp [Engine.init] at hi
    · exact Nat.zero_le 1
  · intro e
    refine ⟨rfl, ?_, rfl⟩
    simp [connect_callback, cancel_task_length]

end Hexrotcomm
